import Mathlib

/-!
Verification of the MARAGS workflow orchestration core.

Shallow embedding of the article-generation pipeline:
agents (researcher, writer, editor) wired into a directed graph with
conditional routing, cyclic tool loops, and driver-level retry.

The embedding follows the Python sources:
  src/workflows/main_graph.py  (routers, graph topology, driver, retry)
  src/workflows/state.py       (shared state record)
  src/agents/base_agent.py     (BaseLlm.create_node field resolution)
  src/tools/web_search_tool.py (WebSearchTool._run)
  src/tools/image_generation_tool.py (generate_article_image)
External capability calls (chat model, search client, image upstream,
graph invocation) are abstracted as function parameters.
-/

namespace MARAGS

/-- A pending tool-call request attached to an ai message
(langchain ToolCall: name plus arguments). -/
structure ToolCall where
  name : String
  arguments : String
deriving DecidableEq, Repr

/-- Message: tagged variant over human/ai/tool, each carrying string content;
only ai messages carry a (possibly empty) list of pending tool calls,
mirroring langchain where only AIMessage has the tool_calls attribute. -/
inductive Message where
  | human (content : String)
  | ai (content : String) (tool_calls : List ToolCall)
  | tool (content : String)
deriving DecidableEq, Repr

/-- Content of a message (every langchain message has a content attribute). -/
def Message.content : Message → String
  | .human c => c
  | .ai c _ => c
  | .tool c => c

/-- Python msg.type == 'ai'. -/
def Message.isAi : Message → Bool
  | .ai _ _ => true
  | _ => false

/-- Python hasattr(m, "tool_calls") and m.tool_calls: true exactly when the
message is ai-tagged and its tool_calls list is non-empty (only AIMessage
has the attribute; an empty list is falsy). -/
def Message.hasPendingToolCalls : Message → Bool
  | .ai _ tcs => !tcs.isEmpty
  | _ => false

/-- Result dict of generate_article_image (src/tools/image_generation_tool.py):
url, prompt, style, and an error key present only on failure. -/
structure ImageResult where
  url : String
  prompt : String
  style : String
  error : Option String
deriving DecidableEq, Repr

/-- Shared State (src/workflows/state.py): topic, word_count, append-only
message log, three Optional output slots, and the generated_images slot.
Option.none models both an absent key and a Python None value at this level
(the dict-level embedding below distinguishes them where it matters). -/
structure State where
  topic : String
  word_count : Int
  messages : List Message
  research_summary : Option String
  article_draft : Option String
  edited_article : Option String
  generated_images : Option (List ImageResult)
deriving DecidableEq, Repr

/-- Node names of the graph (src/workflows/constant.py constants plus the
langgraph START and END sentinels). -/
inductive NodeName where
  | START
  | RESEARCH_NODE
  | WRITE_NODE
  | EDIT_NODE
  | WEB_SEARCH_NODE
  | IMAGE_GENERATION_NODE
  | END
deriving DecidableEq, Repr

/-- Router after the research stage (main_graph.py lines 113-125):
take the last message (IndexError on an empty log is caught and routed to
write); route to web_search iff it has pending tool calls. -/
def route_after_research (state : State) : NodeName :=
  match state.messages.getLast? with
  | none => NodeName.WRITE_NODE
  | some last_message =>
    if last_message.hasPendingToolCalls then NodeName.WEB_SEARCH_NODE
    else NodeName.WRITE_NODE

/-- Router after the edit stage (main_graph.py lines 127-139):
route to image_generation iff the last message has pending tool calls,
otherwise END; an empty log routes to END. -/
def route_after_edit (state : State) : NodeName :=
  match state.messages.getLast? with
  | none => NodeName.END
  | some last_message =>
    if last_message.hasPendingToolCalls then NodeName.IMAGE_GENERATION_NODE
    else NodeName.END

/-- The compiled graph topology as assembled by build_workflow:
added nodes, unconditional add_edge calls, which nodes got conditional
edges, and the set_finish_point target if any. -/
structure CompiledGraph where
  nodes : List NodeName
  edges : List (NodeName × NodeName)
  researchConditional : Bool
  editConditional : Bool
  finishPoint : Option NodeName
deriving DecidableEq, Repr

/-- Topology built by build_workflow (main_graph.py lines 38-170).
editor_style only selects the editor prompt text, never the topology.
The image node, the conditional edges after edit, and the
image_generation→edit back-edge exist iff enable_image_generation;
otherwise edit is the finish point. -/
def build_workflow (editor_style : String) (enable_image_generation : Bool) :
    CompiledGraph :=
  let _ := editor_style
  { nodes := [NodeName.RESEARCH_NODE, NodeName.WRITE_NODE, NodeName.EDIT_NODE,
      NodeName.WEB_SEARCH_NODE] ++
      (if enable_image_generation then [NodeName.IMAGE_GENERATION_NODE] else [])
    edges := [(NodeName.START, NodeName.RESEARCH_NODE),
      (NodeName.WEB_SEARCH_NODE, NodeName.RESEARCH_NODE),
      (NodeName.WRITE_NODE, NodeName.EDIT_NODE)] ++
      (if enable_image_generation
        then [(NodeName.IMAGE_GENERATION_NODE, NodeName.EDIT_NODE)] else [])
    researchConditional := true
    editConditional := enable_image_generation
    finishPoint :=
      if enable_image_generation then none else some NodeName.EDIT_NODE }

/-- WorkflowConfig (main_graph.py lines 27-34) with its Python defaults. -/
structure WorkflowConfig where
  enable_logging : Bool := true
  timeout_seconds : Option Int := none
  retry_attempts : Nat := 3
  editor_style : String := "General"
  enable_image_generation : Bool := true
deriving DecidableEq, Repr

/-- The graph main_workflow actually executes (main_graph.py line 213):
build_workflow(config.editor_style) — the enable_image_generation
argument is not forwarded, so the Python default True applies. -/
def mainWorkflowGraph (config : WorkflowConfig) : CompiledGraph :=
  build_workflow config.editor_style true

/-- Helper: hasPendingToolCalls characterised as an ai message with a
non-empty tool-call list. -/
theorem hasPendingToolCalls_iff (m : Message) :
    m.hasPendingToolCalls = true ↔ ∃ c tcs, m = Message.ai c tcs ∧ tcs ≠ [] := by
  cases m with
  | human c => simp [Message.hasPendingToolCalls]
  | tool c => simp [Message.hasPendingToolCalls]
  | ai c tcs =>
    simp only [Message.hasPendingToolCalls, Bool.not_eq_true']
    constructor
    · intro h
      exact ⟨c, tcs, rfl, by simpa [List.isEmpty_iff] using h⟩
    · rintro ⟨c2, tcs2, heq, hne⟩
      cases heq
      simpa [List.isEmpty_iff] using hne

/-- Claim C1: for every state whose last message is ai-tagged with at least
one pending tool call, route_after_research returns WEB_SEARCH_NODE and
route_after_edit returns IMAGE_GENERATION_NODE; for every other state the
routers return the forward node (WRITE_NODE resp. END), and both routers
are total functions (they always return one of exactly two nodes, never
raising); in particular an empty message log routes forward. -/
theorem C1_routing_correctness (s : State) :
    (route_after_research s = NodeName.WEB_SEARCH_NODE ↔
      ∃ c tcs, s.messages.getLast? = some (Message.ai c tcs) ∧ tcs ≠ [])
    ∧ (route_after_research s = NodeName.WEB_SEARCH_NODE ∨
        route_after_research s = NodeName.WRITE_NODE)
    ∧ (route_after_edit s = NodeName.IMAGE_GENERATION_NODE ↔
      ∃ c tcs, s.messages.getLast? = some (Message.ai c tcs) ∧ tcs ≠ [])
    ∧ (route_after_edit s = NodeName.IMAGE_GENERATION_NODE ∨
        route_after_edit s = NodeName.END)
    ∧ route_after_research { s with messages := [] } = NodeName.WRITE_NODE
    ∧ route_after_edit { s with messages := [] } = NodeName.END := by
  refine ⟨?_, ?_, ?_, ?_, rfl, rfl⟩
  · unfold route_after_research
    cases hm : s.messages.getLast? with
    | none => simp
    | some m =>
      by_cases hp : m.hasPendingToolCalls = true
      · rcases (hasPendingToolCalls_iff m).mp hp with ⟨c, tcs, heq, hne⟩
        subst heq
        simp only [hp, if_true]
        exact ⟨fun _ => ⟨c, tcs, rfl, hne⟩, fun _ => trivial⟩
      · simp only [Bool.not_eq_true] at hp
        simp only [hp, Bool.false_eq_true, if_false]
        constructor
        · intro h; cases h
        · rintro ⟨c, tcs, heq, hne⟩
          injection heq with heq2
          exact absurd ((hasPendingToolCalls_iff m).mpr ⟨c, tcs, heq2, hne⟩)
            (by simp [hp])
  · unfold route_after_research
    cases s.messages.getLast? with
    | none => right; rfl
    | some m =>
      by_cases hp : m.hasPendingToolCalls = true
      · left; simp [hp]
      · right; simp only [Bool.not_eq_true] at hp; simp [hp]
  · unfold route_after_edit
    cases hm : s.messages.getLast? with
    | none => simp
    | some m =>
      by_cases hp : m.hasPendingToolCalls = true
      · rcases (hasPendingToolCalls_iff m).mp hp with ⟨c, tcs, heq, hne⟩
        subst heq
        simp only [hp, if_true]
        exact ⟨fun _ => ⟨c, tcs, rfl, hne⟩, fun _ => trivial⟩
      · simp only [Bool.not_eq_true] at hp
        simp only [hp, Bool.false_eq_true, if_false]
        constructor
        · intro h; cases h
        · rintro ⟨c, tcs, heq, hne⟩
          injection heq with heq2
          exact absurd ((hasPendingToolCalls_iff m).mpr ⟨c, tcs, heq2, hne⟩)
            (by simp [hp])
  · unfold route_after_edit
    cases s.messages.getLast? with
    | none => right; rfl
    | some m =>
      by_cases hp : m.hasPendingToolCalls = true
      · left; simp [hp]
      · right; simp only [Bool.not_eq_true] at hp; simp [hp]

/-- A Python value stored in the state dict: None, a string, or an int.
This dict-level embedding distinguishes a key that is present with value
None from an absent key, which the structure-level State cannot. -/
inductive PyVal where
  | pyNone
  | str (s : String)
  | int (n : Int)
deriving DecidableEq, Repr

/-- Python str(v) as used by str.format substitution: None renders as the
literal text None. -/
def PyVal.toStr : PyVal → String
  | .pyNone => "None"
  | .str s => s
  | .int n => toString n

/-- Python key-in-dict lookup: some v when the key is present (v itself may
be PyVal.pyNone), none when the key is absent. -/
def lookupKey (d : List (String × PyVal)) (k : String) : Option PyVal :=
  (d.find? (fun p => p.1 == k)).map (fun p => p.2)

/-- The fallback scan of BaseLlm.create_node (base_agent.py lines 93-97):
walk a message list front to back and return the content of the first
ai-tagged message found. Applied to the reversed log this is the Python
loop for msg in reversed(messages). -/
def scanForAi : List Message → Option String
  | [] => none
  | m :: rest => if m.isAi then some m.content else scanForAi rest

/-- Field resolution of BaseLlm.create_node (base_agent.py lines 85-102):
if the field name is a key of the state dict use its value (even when that
value is None); otherwise take the content of the most recent ai message;
if no ai message exists, raise ValueError naming the field (the Python
message wraps the field name in single quotes). -/
def resolveField (state : List (String × PyVal)) (msgs : List Message)
    (field : String) : Except String PyVal :=
  match lookupKey state field with
  | some v => Except.ok v
  | none =>
    match scanForAi msgs.reverse with
    | some c => Except.ok (PyVal.str c)
    | none =>
      Except.error ("Expected field " ++ field ++ " not found in state or messages")

/-- Spec-side description of the fallback source: the content of the most
recent ai-tagged message of the log (scanning from the end backward). -/
def mostRecentAiContent (msgs : List Message) : Option String :=
  ((msgs.filter (fun m => m.isAi)).getLast?).map Message.content

/-- A piece of a prompt template: literal text or a named substitution slot. -/
inductive Chunk where
  | lit (s : String)
  | field (name : String)
deriving DecidableEq, Repr

/-- Python template.format(**kwargs) (base_agent.py line 47): substitute each
named slot by str(value); a slot naming a missing key raises KeyError. -/
def formatTemplate (kwargs : List (String × PyVal)) : List Chunk → Except String String
  | [] => Except.ok ""
  | Chunk.lit s :: rest =>
    (formatTemplate kwargs rest).map (fun r => s ++ r)
  | Chunk.field f :: rest =>
    match lookupKey kwargs f with
    | some v => (formatTemplate kwargs rest).map (fun r => v.toStr ++ r)
    | none => Except.error ("KeyError: " ++ f)

/-- Python str.strip(): drop whitespace from both ends. Defined over the
character list so that it evaluates by kernel reduction. -/
def pyStrip (s : String) : String :=
  String.mk (((s.data.dropWhile Char.isWhitespace).reverse.dropWhile
    Char.isWhitespace).reverse)

/-- The non-message fields of the initial state dict built by main_workflow
(main_graph.py lines 215-223): topic stripped, word_count, and the three
output slots initialised to None (keys present, values None); the messages
key holds the empty list and is embedded separately. -/
def initialStateDict (topic : String) (word_count : Int) :
    List (String × PyVal) :=
  [("topic", PyVal.str (pyStrip topic)),
   ("word_count", PyVal.int word_count),
   ("research_summary", PyVal.pyNone),
   ("article_draft", PyVal.pyNone),
   ("edited_article", PyVal.pyNone)]

/-- Helper: the operational scan over the reversed log returns exactly the
content of the most recent ai-tagged message. -/
theorem scanForAi_reverse (msgs : List Message) :
    scanForAi msgs.reverse = mostRecentAiContent msgs := by
  have hhead : ∀ l : List Message,
      scanForAi l = ((l.filter (fun m => m.isAi)).head?).map Message.content := by
    intro l
    induction l with
    | nil => rfl
    | cons m rest ih =>
      by_cases hm : m.isAi = true
      · simp [scanForAi, List.filter_cons, hm]
      · simp only [Bool.not_eq_true] at hm
        simp [scanForAi, List.filter_cons, hm, ih]
  rw [hhead, mostRecentAiContent, List.filter_reverse, List.head?_reverse]

/-- Claim C4: for every state dict, message log and field name, create_node
resolves the field from the state when its key is present (using the stored
value), otherwise from the content of the most recent ai-tagged message,
and when the key is absent and no ai-tagged message exists it raises an
error naming the missing field instead of substituting empty content. -/
theorem C4_field_resolution (state : List (String × PyVal))
    (msgs : List Message) (field : String) :
    (∀ v, lookupKey state field = some v →
      resolveField state msgs field = Except.ok v)
    ∧ (lookupKey state field = none → ∀ c, mostRecentAiContent msgs = some c →
      resolveField state msgs field = Except.ok (PyVal.str c))
    ∧ (lookupKey state field = none → mostRecentAiContent msgs = none →
      resolveField state msgs field =
        Except.error ("Expected field " ++ field ++ " not found in state or messages")) := by
  refine ⟨?_, ?_, ?_⟩
  · intro v hv
    simp [resolveField, hv]
  · intro hk c hc
    rw [← scanForAi_reverse] at hc
    simp [resolveField, hk, hc]
  · intro hk hc
    rw [← scanForAi_reverse] at hc
    simp [resolveField, hk, hc]

/-- Claim C4 witness: concrete applications of the three branches — a field
present in state resolves to its state value; an absent field resolves to
the most recent ai message content; an absent field with no ai message in
the log raises the naming error. -/
theorem C4_field_resolution_witness :
    resolveField [("topic", PyVal.str "solar")] [] "topic" =
      Except.ok (PyVal.str "solar")
    ∧ resolveField [] [Message.human "q", Message.ai "summary" [],
        Message.tool "r"] "research_summary" = Except.ok (PyVal.str "summary")
    ∧ resolveField [] [Message.human "q"] "research_summary" =
      Except.error "Expected field research_summary not found in state or messages" := by
  refine ⟨?_, ?_, ?_⟩
  · exact (C4_field_resolution [("topic", PyVal.str "solar")] [] "topic").1
      (PyVal.str "solar") (by decide)
  · exact (C4_field_resolution [] [Message.human "q", Message.ai "summary" [],
      Message.tool "r"] "research_summary").2.1 (by decide) "summary" (by decide)
  · exact (C4_field_resolution [] [Message.human "q"] "research_summary").2.2
      (by decide) (by decide)

/-- Claim C10: in the initial state built by main_workflow the slots
research_summary, article_draft and edited_article are bound to None, so
for every message log the presence check succeeds and create_node resolves
each of them to the stored None — the message-history fallback and the
missing-field error are unreachable — and substituting that None value into
a prompt template renders the literal text None. -/
theorem C10_none_initialisation (topic : String) (word_count : Int)
    (msgs : List Message) (pre post : String) :
    resolveField (initialStateDict topic word_count) msgs "research_summary" =
      Except.ok PyVal.pyNone
    ∧ resolveField (initialStateDict topic word_count) msgs "article_draft" =
      Except.ok PyVal.pyNone
    ∧ resolveField (initialStateDict topic word_count) msgs "edited_article" =
      Except.ok PyVal.pyNone
    ∧ formatTemplate [("research_summary", PyVal.pyNone)]
        [Chunk.lit pre, Chunk.field "research_summary", Chunk.lit post] =
      Except.ok (pre ++ ("None" ++ (post ++ ""))) := by
  refine ⟨rfl, rfl, rfl, rfl⟩

/-- WebSearchTool._run (web_search_tool.py lines 19-27): call the search
client; on any exception return the text Web search failed: e instead of
raising. The search client is abstracted as a fallible function. -/
def WebSearchTool_run (search_client : String → Except String String)
    (query : String) : String :=
  match search_client query with
  | Except.ok results => results
  | Except.error e => "Web search failed: " ++ e

/-- generate_article_image (image_generation_tool.py lines 13-68): enhance
the prompt with the style, call the upstream image API; on success return
url/prompt/style with no error key; on any exception return a placeholder
URL with the original prompt and style plus an error key, instead of
raising. The upstream call is abstracted as a fallible function from the
enhanced prompt to a URL. -/
def generate_article_image (upstream : String → Except String String)
    (prompt : String) (style : String) : ImageResult :=
  match upstream (prompt ++ ", " ++ style ++ " style") with
  | Except.ok image_url =>
    { url := image_url, prompt := prompt, style := style, error := none }
  | Except.error e =>
    { url := "https://via.placeholder.com/1024x1024.png?text=Image+Generation+Failed",
      prompt := prompt, style := style, error := some e }

/-- Claim C8: tool capability failures never escape as exceptions. Whenever
the search client raises, WebSearchTool._run returns a string containing
the error text (both functions are total, so no exception propagates); and
whenever the image upstream raises, generate_article_image returns a dict
with the placeholder URL, the original prompt and style, and the error
field set, rather than raising. -/
theorem C8_tool_degradation (search_client : String → Except String String)
    (upstream : String → Except String String) (query prompt style e1 e2 : String) :
    (search_client query = Except.error e1 →
      WebSearchTool_run search_client query = "Web search failed: " ++ e1)
    ∧ (upstream (prompt ++ ", " ++ style ++ " style") = Except.error e2 →
      generate_article_image upstream prompt style =
        { url := "https://via.placeholder.com/1024x1024.png?text=Image+Generation+Failed",
          prompt := prompt, style := style, error := some e2 })
    ∧ (search_client query = Except.ok e1 →
      WebSearchTool_run search_client query = e1) := by
  refine ⟨?_, ?_, ?_⟩
  · intro h; simp [WebSearchTool_run, h]
  · intro h; simp [generate_article_image, h]
  · intro h; simp [WebSearchTool_run, h]

/-- Claim C8 witness: with a search client and an image upstream that always
raise, the search tool returns the inline error string and the image tool
returns the placeholder result carrying the error. -/
theorem C8_tool_degradation_witness :
    WebSearchTool_run (fun _ => Except.error "boom") "solar panels" =
      "Web search failed: boom"
    ∧ generate_article_image (fun _ => Except.error "api down") "a sunset"
        "photorealistic" =
      { url := "https://via.placeholder.com/1024x1024.png?text=Image+Generation+Failed",
        prompt := "a sunset", style := "photorealistic", error := some "api down" } := by
  refine ⟨?_, ?_⟩
  · exact (C8_tool_degradation (fun _ => Except.error "boom")
      (fun _ => Except.error "api down") "solar panels" "a sunset"
      "photorealistic" "boom" "api down").1 rfl
  · exact (C8_tool_degradation (fun _ => Except.error "boom")
      (fun _ => Except.error "api down") "solar panels" "a sunset"
      "photorealistic" "boom" "api down").2.1 rfl

/-- The update produced by a langgraph prebuilt ToolNode (main_graph.py
lines 94-98 wrap the search and image tools in ToolNode): it reads the
pending tool calls of the last message, executes each tool, and returns a
partial state holding only a messages update — one tool-tagged message per
call, in call order. It writes no other state channel. The tool execution
itself is abstracted as a function from a call to its textual result. -/
def toolNodeUpdate (execTool : ToolCall → String) (msgs : List Message) :
    List Message :=
  match msgs.getLast? with
  | some (Message.ai _ tcs) => tcs.map (fun tc => Message.tool (execTool tc))
  | _ => []

/-- Applying the image-generation ToolNode to the shared state: langgraph
merges the returned partial state into the running state — messages by
concatenation, every other channel untouched, since the update contains
only the messages key. -/
def imageToolNodeApply (execTool : ToolCall → String) (s : State) : State :=
  { s with messages := s.messages ++ toolNodeUpdate execTool s.messages }

/-- Claim C5: code behaviour. The image-generation tool node never writes
generated_images: for every state and every tool executor the field is
unchanged by a visit, and on the concrete run where the editor issued one
image-generation call that succeeded (the executor returns a URL result),
generated_images is still None after the visit instead of holding one
entry, even though the tool message was appended. -/
theorem C5_generated_images_never_written :
    (∀ (execTool : ToolCall → String) (s : State),
      (imageToolNodeApply execTool s).generated_images = s.generated_images)
    ∧ (imageToolNodeApply (fun _ => "https://img.example/ok.png")
        { topic := "solar panels", word_count := 500,
          messages := [Message.ai "draft"
            [{ name := "generate_article_image", arguments := "a sunset" }]],
          research_summary := some "r", article_draft := some "d",
          edited_article := some "e", generated_images := none }).generated_images
      = none
    ∧ (imageToolNodeApply (fun _ => "https://img.example/ok.png")
        { topic := "solar panels", word_count := 500,
          messages := [Message.ai "draft"
            [{ name := "generate_article_image", arguments := "a sunset" }]],
          research_summary := some "r", article_draft := some "d",
          edited_article := some "e", generated_images := none }).messages
      = [Message.ai "draft"
          [{ name := "generate_article_image", arguments := "a sunset" }],
         Message.tool "https://img.example/ok.png"] := by
  refine ⟨fun execTool s => rfl, rfl, rfl⟩

/-- Python truthiness of an Optional string slot: None and the empty string
are falsy, any non-empty string is truthy. -/
def pyTruthyStr : Option String → Bool
  | none => false
  | some s => s != ""

/-- Python str(x) for an optional last-exception value (None prints None). -/
def pyStrOpt : Option String → String
  | none => "None"
  | some s => s

/-- Final-state validation and artifact extraction (main_graph.py lines
249-276): if edited_article is falsy and the message log is empty, raise;
with return_full_state false, return edited_article when truthy, else the
content of the last ai-tagged message, else the content of the last
message, else the empty string. -/
def extract_article (final_state : State) : Except String String :=
  if pyTruthyStr final_state.edited_article = false ∧ final_state.messages.isEmpty then
    Except.error "Workflow completed but no messages were generated"
  else if pyTruthyStr final_state.edited_article then
    Except.ok (final_state.edited_article.getD "")
  else
    match mostRecentAiContent final_state.messages with
    | some c => Except.ok c
    | none =>
      match final_state.messages.getLast? with
      | some m => Except.ok m.content
      | none => Except.ok ""

/-- Claim C7 counterexample: a successful final state whose edited_article
field WAS set — to the empty string — and whose last ai-tagged message has
content X. The claim says the driver returns the edited_article field and
falls back only when the field was never set; the code tests Python
truthiness, so it skips the set-but-empty field and returns X.
State.mk fields: topic, word_count, messages, research_summary,
article_draft, edited_article, generated_images. -/
theorem C7_counterexample :
    (State.mk "t" 500 [Message.ai "X" []] none none (some "") none).edited_article
      = some ""
    ∧ extract_article (State.mk "t" 500 [Message.ai "X" []] none none (some "") none)
      = Except.ok "X"
    ∧ ("X" : String) ≠ "" := by
  refine ⟨rfl, rfl, by decide⟩

/-- Claim C7 as amended: on a successful run with return_full_state false,
the driver returns edited_article when it is set and non-empty; when
edited_article is falsy (never set, or set to the empty string) it returns
the content of the most recent ai-tagged message; when additionally no
ai-tagged message exists it returns the last message content. -/
theorem C7_result_extraction (final_state : State) :
    (∀ s, final_state.edited_article = some s → s ≠ "" →
      extract_article final_state = Except.ok s)
    ∧ (pyTruthyStr final_state.edited_article = false →
      ∀ c, mostRecentAiContent final_state.messages = some c →
      extract_article final_state = Except.ok c)
    ∧ (pyTruthyStr final_state.edited_article = false →
      mostRecentAiContent final_state.messages = none →
      ∀ m, final_state.messages.getLast? = some m →
      extract_article final_state = Except.ok m.content) := by
  refine ⟨?_, ?_, ?_⟩
  · intro s hs hne
    have ht : pyTruthyStr final_state.edited_article = true := by
      rw [hs]
      simp [pyTruthyStr, hne]
    simp only [extract_article, ht]
    simp [hs]
  · intro hf c hc
    have hne : final_state.messages.isEmpty = false := by
      cases hml : final_state.messages with
      | nil =>
        rw [hml] at hc
        exact absurd hc (by simp [mostRecentAiContent])
      | cons a l => simp
    simp only [extract_article, hf, hne]
    simp [hc]
  · intro hf hc m hm
    have hne : final_state.messages.isEmpty = false := by
      cases hml : final_state.messages with
      | nil =>
        rw [hml] at hm
        exact absurd hm (by simp)
      | cons a l => simp
    simp only [extract_article, hf, hne]
    simp [hc, hm]

/-- Claim C7 witness: the three amended branches at concrete final states —
a non-empty edited_article is returned directly; a falsy edited_article
falls back to the most recent ai message content; with no ai message the
last message content is returned. -/
theorem C7_result_extraction_witness :
    extract_article (State.mk "t" 500 [Message.ai "draft" []] none none
      (some "final article") none) = Except.ok "final article"
    ∧ extract_article (State.mk "t" 500 [Message.human "q", Message.ai "art" []]
      none none none none) = Except.ok "art"
    ∧ extract_article (State.mk "t" 500 [Message.human "q"] none none
      (some "") none) = Except.ok "q" := by
  refine ⟨?_, ?_, ?_⟩
  · exact (C7_result_extraction _).1 "final article" rfl (by decide)
  · exact (C7_result_extraction _).2.1 (by decide) "art" (by decide)
  · exact (C7_result_extraction _).2.2 (by decide) (by decide)
      (Message.human "q") (by decide)

/-- Errors raised by main_workflow: ValueError from validation and
RuntimeError from execution failure. -/
inductive WorkflowError where
  | valueError (msg : String)
  | runtimeError (msg : String)
deriving DecidableEq, Repr

/-- Return value of main_workflow: the final article string, or the full
state when return_full_state is true. -/
inductive MainResult where
  | article (s : String)
  | fullState (st : State)
deriving DecidableEq, Repr

/-- The initial state built by main_workflow (main_graph.py lines 215-223)
in structure form: stripped topic, the word count, an empty message log,
and the three output slots initialised to None. -/
def initial_state (topic : String) (word_count : Int) : State :=
  { topic := pyStrip topic, word_count := word_count, messages := [],
    research_summary := none, article_draft := none, edited_article := none,
    generated_images := none }

/-- The retry loop of main_workflow (main_graph.py lines 229-243): starting
at attempt index k with a number of attempts remaining, run
compiled_graph.invoke on the initial state; stop at the first success.
Each executed attempt is recorded as the pair (state passed in, outcome).
The graph invocation is abstracted as a fallible function of the attempt
index and the input state; the input is the same initial_state value on
every attempt, exactly as in the source, where invoke never mutates its
input dict. -/
def attemptTrace (invoke : Nat → State → Except String State)
    (init : State) : Nat → Nat → List (State × Except String State)
  | _, 0 => []
  | k, remaining + 1 =>
    match invoke k init with
    | Except.ok s => [(init, Except.ok s)]
    | Except.error e =>
      (init, Except.error e) :: attemptTrace invoke init (k + 1) remaining

/-- The final_state variable after the loop: the state of the successful
attempt, if any (only the last recorded attempt can be a success). -/
def finalStateOf : List (State × Except String State) → Option State
  | [] => none
  | (_, Except.ok s) :: _ => some s
  | (_, Except.error _) :: rest => finalStateOf rest

/-- One iteration of the Python loop bookkeeping: a failing attempt
overwrites last_exception, a successful one leaves it. -/
def lastExcStep (acc : Option String) (p : State × Except String State) :
    Option String :=
  match p.2 with
  | Except.error m => some m
  | Except.ok _ => acc

/-- The last_exception variable after the loop: the error of the most
recent failed attempt, if any. -/
def lastExceptionOf (trace : List (State × Except String State)) : Option String :=
  trace.foldl lastExcStep none

/-- main_workflow (main_graph.py lines 173-281). Input validation raises
ValueError before the try block; inside the try block, exhaustion of the
retry loop raises RuntimeError naming the attempt count and the last
exception, and every error raised inside the try block is re-wrapped by
the outer handler as RuntimeError prefixed Workflow execution failed. On
success the final-state validation of lines 249-254 runs, then either the
full state or the extracted article is returned. -/
def main_workflow (topic : String) (word_count : Int) (config : WorkflowConfig)
    (return_full_state : Bool) (invoke : Nat → State → Except String State) :
    Except WorkflowError MainResult :=
  if pyStrip topic = "" then
    Except.error (WorkflowError.valueError "Topic cannot be empty or whitespace only")
  else if word_count ≤ 0 then
    Except.error (WorkflowError.valueError "Word count must be positive")
  else
    let init := initial_state topic word_count
    let trace := attemptTrace invoke init 0 config.retry_attempts
    match finalStateOf trace with
    | none =>
      Except.error (WorkflowError.runtimeError
        ("Workflow execution failed: Workflow failed after " ++
          toString config.retry_attempts ++ " attempts. Last error: " ++
          pyStrOpt (lastExceptionOf trace)))
    | some final_state =>
      match extract_article final_state with
      | Except.error m =>
        Except.error (WorkflowError.runtimeError ("Workflow execution failed: " ++ m))
      | Except.ok a =>
        if return_full_state then Except.ok (MainResult.fullState final_state)
        else Except.ok (MainResult.article a)

/-- Helper: the retry loop executes at most the requested number of
attempts. -/
theorem attemptTrace_length (invoke : Nat → State → Except String State)
    (init : State) : ∀ n k, (attemptTrace invoke init k n).length ≤ n := by
  intro n
  induction n with
  | zero => intro k; simp [attemptTrace]
  | succ m ih =>
    intro k
    cases h : invoke k init with
    | ok s => simp [attemptTrace, h]
    | error e =>
      simp only [attemptTrace, h, List.length_cons]
      exact Nat.succ_le_succ (ih (k + 1))

/-- Helper: every executed attempt receives the same initial state. -/
theorem attemptTrace_input (invoke : Nat → State → Except String State)
    (init : State) :
    ∀ n k p, p ∈ attemptTrace invoke init k n → p.1 = init := by
  intro n
  induction n with
  | zero => intro k p hp; exact absurd hp (by simp [attemptTrace])
  | succ m ih =>
    intro k p hp
    cases h : invoke k init with
    | ok s =>
      rw [attemptTrace, h] at hp
      rcases List.mem_singleton.mp hp with rfl
      rfl
    | error e =>
      rw [attemptTrace, h] at hp
      rcases List.mem_cons.mp hp with rfl | hmem
      · rfl
      · exact ih (k + 1) p hmem

/-- Helper: when every attempt raises, the loop never produces a final
state. -/
theorem finalStateOf_all_fail (invoke : Nat → State → Except String State)
    (init : State) (errs : Nat → String)
    (h : ∀ k s, invoke k s = Except.error (errs k)) :
    ∀ n k, finalStateOf (attemptTrace invoke init k n) = none := by
  intro n
  induction n with
  | zero => intro k; rfl
  | succ m ih =>
    intro k
    rw [attemptTrace, h k init]
    exact ih (k + 1)

/-- Helper: when every attempt raises, the recorded last exception is the
error of the final attempt. -/
theorem lastExceptionOf_all_fail (invoke : Nat → State → Except String State)
    (init : State) (errs : Nat → String)
    (h : ∀ k s, invoke k s = Except.error (errs k)) :
    ∀ n k, 0 < n →
      lastExceptionOf (attemptTrace invoke init k n) = some (errs (k + n - 1)) := by
  have hfold : ∀ n k acc, 0 < n →
      (attemptTrace invoke init k n).foldl lastExcStep acc = some (errs (k + n - 1)) := by
    intro n
    induction n with
    | zero => intro k acc hk; exact absurd hk (by omega)
    | succ m ih =>
      intro k acc _
      rw [attemptTrace, h k init]
      cases m with
      | zero => simp [attemptTrace, lastExcStep]
      | succ m2 =>
        rw [List.foldl_cons]
        have hrec := ih (k + 1) (lastExcStep acc (init, Except.error (errs k)))
          (by omega)
        rw [hrec]
        have heq : k + 1 + (m2 + 1) - 1 = k + (m2 + 1 + 1) - 1 := by omega
        rw [heq]
  intro n k hn
  exact hfold n k none hn

/-- Claim C2: main_workflow runs the compiled graph at most
config.retry_attempts times; every executed attempt (in particular attempt
k+1 after attempt k raised) is invoked with the same fresh initial state
built from the validated inputs, never a partially-mutated state; and when
every attempt raises, the call fails with a RuntimeError that states the
attempt count and wraps the last underlying exception. -/
theorem C2_retry_semantics (topic : String) (word_count : Int)
    (config : WorkflowConfig) (return_full_state : Bool)
    (invoke : Nat → State → Except String State) (errs : Nat → String) :
    (attemptTrace invoke (initial_state topic word_count) 0
        config.retry_attempts).length ≤ config.retry_attempts
    ∧ (∀ p ∈ attemptTrace invoke (initial_state topic word_count) 0
        config.retry_attempts, p.1 = initial_state topic word_count)
    ∧ ((∀ k s, invoke k s = Except.error (errs k)) → ¬ pyStrip topic = "" →
        0 < word_count → 0 < config.retry_attempts →
        main_workflow topic word_count config return_full_state invoke =
          Except.error (WorkflowError.runtimeError
            ("Workflow execution failed: Workflow failed after " ++
              toString config.retry_attempts ++ " attempts. Last error: " ++
              errs (config.retry_attempts - 1)))) := by
  refine ⟨attemptTrace_length invoke _ _ 0,
    fun p hp => attemptTrace_input invoke _ _ 0 p hp, ?_⟩
  intro hfail ht hw hn
  have hw2 : ¬ word_count ≤ 0 := by omega
  rw [main_workflow]
  simp only [ht, if_false, hw2, if_false,
    finalStateOf_all_fail invoke _ errs hfail config.retry_attempts 0,
    lastExceptionOf_all_fail invoke _ errs hfail config.retry_attempts 0 hn,
    Nat.zero_add, pyStrOpt]

/-- Claim C2 witness: with an invocation stub that always raises boom and
the default config (three attempts), main_workflow raises the wrapped
RuntimeError naming 3 attempts and boom, and the first recorded attempt was
passed exactly the fresh initial state. -/
theorem C2_retry_semantics_witness :
    ((initial_state "t" 500, (Except.error "boom" : Except String State)).1
      = initial_state "t" 500)
    ∧ main_workflow "t" 500 {} false (fun _ _ => Except.error "boom") =
      Except.error (WorkflowError.runtimeError
        ("Workflow execution failed: Workflow failed after " ++
          toString (3 : Nat) ++ " attempts. Last error: " ++ "boom")) := by
  refine ⟨?_, ?_⟩
  · exact (C2_retry_semantics "t" 500 {} false (fun _ _ => Except.error "boom")
      (fun _ => "boom")).2.1 (initial_state "t" 500, Except.error "boom")
      (List.Mem.head _)
  · exact (C2_retry_semantics "t" 500 {} false (fun _ _ => Except.error "boom")
      (fun _ => "boom")).2.2 (fun k s => rfl) (by decide) (by decide) (by decide)

/-- Claim C6: with an empty or whitespace-only topic, or a non-positive
word count, main_workflow raises the corresponding ValueError immediately,
and the outcome is identical for every graph-invocation stub and every
configuration — no capability is invoked, no graph attempt is consumed,
and the error is not the wrapped RuntimeError of a failed run. -/
theorem C6_fail_fast_validation (topic : String) (word_count : Int)
    (config : WorkflowConfig) (return_full_state : Bool)
    (invoke invoke2 : Nat → State → Except String State) :
    (pyStrip topic = "" →
      main_workflow topic word_count config return_full_state invoke =
        Except.error (WorkflowError.valueError
          "Topic cannot be empty or whitespace only"))
    ∧ (¬ pyStrip topic = "" → word_count ≤ 0 →
      main_workflow topic word_count config return_full_state invoke =
        Except.error (WorkflowError.valueError "Word count must be positive"))
    ∧ ((pyStrip topic = "" ∨ word_count ≤ 0) → ∀ config2 : WorkflowConfig,
      main_workflow topic word_count config return_full_state invoke =
        main_workflow topic word_count config2 return_full_state invoke2) := by
  refine ⟨?_, ?_, ?_⟩
  · intro h
    rw [main_workflow]
    simp [h]
  · intro h hw
    rw [main_workflow]
    simp [h, hw]
  · intro h config2
    rcases h with h | h
    · rw [main_workflow, main_workflow]
      simp [h]
    · by_cases ht : pyStrip topic = ""
      · rw [main_workflow, main_workflow]
        simp [ht]
      · rw [main_workflow, main_workflow]
        simp [ht, h]

/-- Claim C6 witness: a whitespace-only topic raises the ValueError, a
non-positive word count raises its ValueError, and the whitespace-topic
outcome does not depend on the invocation stub or the configuration. -/
theorem C6_fail_fast_validation_witness :
    main_workflow " " 500 {} false (fun _ _ => Except.error "never called") =
      Except.error (WorkflowError.valueError
        "Topic cannot be empty or whitespace only")
    ∧ main_workflow "solar" (-3) {} false (fun _ _ => Except.error "never called") =
      Except.error (WorkflowError.valueError "Word count must be positive")
    ∧ main_workflow " " 500 {} false (fun _ _ => Except.error "never called") =
      main_workflow " " 500 { retry_attempts := 7 } false
        (fun _ s => Except.ok s) := by
  refine ⟨?_, ?_, ?_⟩
  · exact (C6_fail_fast_validation " " 500 {} false
      (fun _ _ => Except.error "never called") (fun _ s => Except.ok s)).1 (by decide)
  · exact (C6_fail_fast_validation "solar" (-3) {} false
      (fun _ _ => Except.error "never called") (fun _ s => Except.ok s)).2.1
      (by decide) (by decide)
  · exact (C6_fail_fast_validation " " 500 {} false
      (fun _ _ => Except.error "never called") (fun _ s => Except.ok s)).2.2
      (Or.inl (by decide)) { retry_attempts := 7 }

/-- Errors of the graph engine. Modelled from the spec: the Graph Engine
is supplied by the external langgraph runtime (compiled_graph.invoke at
main_graph.py line 234), whose code is not under src/; spec section 4.4
specifies an implementation-defined maximum step count per run whose
exhaustion is a fatal run error (langgraph raises GraphRecursionError at
its recursion limit), while a node exception aborts the run. -/
inductive EngineError where
  | stepBudgetExceeded
  | nodeFailure (msg : String)
deriving DecidableEq, Repr

/-- Modelled from the spec: the Graph Engine execution algorithm of spec
section 4.4 (the langgraph runtime is not under src/). From the current
node, repeatedly run the node and merge its partial state (nodeApp does
both), then pick the successor — static edge or bound router, abstracted
as next — until the successor is END. Every iteration consumes one unit of
the step budget; a run that has not reached END when the budget runs out
fails with stepBudgetExceeded instead of being silently truncated. On
success the final node (always END), the final state and the number of
steps taken are returned. -/
def runEngine (nodeApp : NodeName → State → Except String State)
    (next : NodeName → State → NodeName) :
    NodeName → State → Nat → Except EngineError (NodeName × State × Nat)
  | _, _, 0 => Except.error EngineError.stepBudgetExceeded
  | current, s, budget + 1 =>
    if current = NodeName.END then Except.ok (current, s, 0)
    else
      match nodeApp current s with
      | Except.error e => Except.error (EngineError.nodeFailure e)
      | Except.ok s2 =>
        (runEngine nodeApp next (next current s2) s2 budget).map
          (fun r => (r.1, r.2.1, r.2.2 + 1))

/-- The graph invocation that main_workflow retries, when the engine is the
step-budgeted runner starting at the successor of START (RESEARCH_NODE,
main_graph.py line 111): an engine failure — including step-budget
exhaustion — surfaces as an invocation exception, which the retry loop
counts as a failed attempt. -/
def engineInvoke (nodeApp : NodeName → State → Except String State)
    (next : NodeName → State → NodeName) (budget : Nat) :
    Nat → State → Except String State :=
  fun _ s =>
    match runEngine nodeApp next NodeName.RESEARCH_NODE s budget with
    | Except.ok r => Except.ok r.2.1
    | Except.error EngineError.stepBudgetExceeded =>
      Except.error "GraphRecursionError: recursion limit reached"
    | Except.error (EngineError.nodeFailure e) => Except.error e

/-- Claim C9: every engine run is bounded by the step budget — for every
graph behaviour, start node, input state and budget, execution either
reaches END within the budget (returning after at most budget steps),
fails with a node error, or fails with the fatal stepBudgetExceeded error;
it can never loop unboundedly (runEngine is a total function) nor return
success without having reached END. Moreover a step-budget failure
surfaces through the graph invocation as an attempt-failing exception for
the retry loop. -/
theorem C9_step_budget_bound (nodeApp : NodeName → State → Except String State)
    (next : NodeName → State → NodeName) (cur : NodeName) (s : State)
    (budget : Nat) :
    ((∃ s2 k, runEngine nodeApp next cur s budget =
        Except.ok (NodeName.END, s2, k) ∧ k ≤ budget)
      ∨ (∃ e, runEngine nodeApp next cur s budget =
        Except.error (EngineError.nodeFailure e))
      ∨ runEngine nodeApp next cur s budget =
        Except.error EngineError.stepBudgetExceeded)
    ∧ (runEngine nodeApp next NodeName.RESEARCH_NODE s budget =
        Except.error EngineError.stepBudgetExceeded →
      ∀ k, engineInvoke nodeApp next budget k s =
        Except.error "GraphRecursionError: recursion limit reached") := by
  constructor
  · induction budget generalizing cur s with
    | zero => exact Or.inr (Or.inr rfl)
    | succ b ih =>
      by_cases hc : cur = NodeName.END
      · exact Or.inl ⟨s, 0, by simp [runEngine, hc], Nat.zero_le _⟩
      · cases happ : nodeApp cur s with
        | error e =>
          exact Or.inr (Or.inl ⟨e, by simp [runEngine, hc, happ]⟩)
        | ok s2 =>
          rcases ih (next cur s2) s2 with ⟨s3, k, hrun, hk⟩ | ⟨e, hrun⟩ | hrun
          · exact Or.inl ⟨s3, k + 1, by simp [runEngine, hc, happ, hrun, Except.map],
              by omega⟩
          · exact Or.inr (Or.inl ⟨e, by simp [runEngine, hc, happ, hrun, Except.map]⟩)
          · exact Or.inr (Or.inr (by simp [runEngine, hc, happ, hrun, Except.map]))
  · intro h k
    simp [engineInvoke, h]

/-- Claim C9 witness: a pathological graph whose router always loops back
to the research node exhausts a budget of 2 steps, and the failure surfaces
through the graph invocation as the recursion-limit exception. -/
theorem C9_step_budget_bound_witness :
    runEngine (fun _ s => Except.ok s) (fun _ _ => NodeName.RESEARCH_NODE)
      NodeName.RESEARCH_NODE (initial_state "t" 500) 2 =
      Except.error EngineError.stepBudgetExceeded
    ∧ engineInvoke (fun _ s => Except.ok s) (fun _ _ => NodeName.RESEARCH_NODE)
      2 0 (initial_state "t" 500) =
      Except.error "GraphRecursionError: recursion limit reached" := by
  refine ⟨rfl, ?_⟩
  exact (C9_step_budget_bound (fun _ s => Except.ok s)
    (fun _ _ => NodeName.RESEARCH_NODE) NodeName.RESEARCH_NODE
    (initial_state "t" 500) 2).2 rfl 0

/-- Claim C3: code behaviour at the failing configuration. With
enable_image_generation = false in the config, the graph main_workflow
executes still contains the image_generation node, the conditional edges
after edit, and the image_generation→edit back-edge, and edit is not a
finish point — because main_workflow calls build_workflow with only the
editor style, leaving enable_image_generation at its default True.
build_workflow itself honours the flag when it is passed. -/
theorem C3_image_flag_dropped :
    (NodeName.IMAGE_GENERATION_NODE ∈
      (mainWorkflowGraph { enable_image_generation := false }).nodes)
    ∧ (mainWorkflowGraph { enable_image_generation := false }).editConditional = true
    ∧ ((NodeName.IMAGE_GENERATION_NODE, NodeName.EDIT_NODE) ∈
      (mainWorkflowGraph { enable_image_generation := false }).edges)
    ∧ (mainWorkflowGraph { enable_image_generation := false }).finishPoint = none
    ∧ (NodeName.IMAGE_GENERATION_NODE ∉ (build_workflow "General" false).nodes)
    ∧ (build_workflow "General" false).editConditional = false
    ∧ (build_workflow "General" false).finishPoint = some NodeName.EDIT_NODE := by
  decide

end MARAGS
